import Mathlib

/-!
Verification of the SET/RESET session-variable engine of pkg/sql/set_var.go.

The source file is embedded shallowly: Go functions become Lean functions,
in-place mutation of the session state becomes explicit state passing
(`RunState`), machine int64 arithmetic is `Int` with explicit two's-complement
wrapping where Go can overflow, and fallible Go functions return `Except`.
Collaborator code that lives outside the given source file (the mutator
iterator, the interval parser, the time-zone database, the apd decimal
library, Go duration rendering) is modelled from the specification; each such
definition carries a doc comment starting with "Modelled from the spec:".
-/

/-- Structured error mirroring pgerror: an error code class (pgcode), the
message built by pgerror.Newf, plus optional detail (errors.WithDetailf) and
hint (errors.WithHintf). -/
structure PgError where
  code : String
  message : String
  detail : String
  hint : String
deriving DecidableEq

/-- Go %q quoting of a name or value as it appears in this file's error
messages (none of the quoted strings need escaping). -/
def goQuote (s : String) : String := "\"" ++ s ++ "\""

/-- newSingleArgVarError (src/pkg/sql/set_var.go line 415). -/
def newSingleArgVarError (varName : String) : PgError :=
  ⟨"InvalidParameterValue", "SET " ++ varName ++ " takes only one argument", "", ""⟩

/-- wrapSetVarError (src/pkg/sql/set_var.go line 420); the detail argument is
the already-formatted text of the wrapped failure. -/
def wrapSetVarError (varName actualValue detail : String) : PgError :=
  ⟨"InvalidParameterValue",
   "invalid value for parameter " ++ goQuote varName ++ ": " ++ goQuote actualValue,
   detail, ""⟩

/-- newVarValueError (src/pkg/sql/set_var.go line 426). -/
def newVarValueError (varName actualVal : String) (allowedVals : List String) : PgError :=
  if allowedVals.isEmpty then
    ⟨"InvalidParameterValue",
     "invalid value for parameter " ++ goQuote varName ++ ": " ++ goQuote actualVal, "", ""⟩
  else
    ⟨"InvalidParameterValue",
     "invalid value for parameter " ++ goQuote varName ++ ": " ++ goQuote actualVal, "",
     "Available values: " ++ String.intercalate "," allowedVals⟩

/-- newCannotChangeParameterError (src/pkg/sql/set_var.go line 435). -/
def newCannotChangeParameterError (varName : String) : PgError :=
  ⟨"CantChangeRuntimeParam", "parameter " ++ goQuote varName ++ " cannot be changed", "", ""⟩

/-- Whether an Except value is a success. -/
def exceptIsOk : Except ε α → Bool
  | .ok _ => true
  | .error _ => false

/-- The error of an Except value, if any. -/
def exceptErr : Except ε α → Option ε
  | .ok _ => none
  | .error e => some e

/-- The successful result of applying a fallible update, keeping the input
unchanged when the update fails. -/
def applyOk (f : α → Except ε α) (m : α) : α :=
  match f m with
  | .ok m2 => m2
  | .error _ => m

/-- First-match lookup in an association list (the embedding of the Go map
reads used by this file). -/
def lookupStr (xs : List (String × α)) (k : String) : Option α :=
  match xs with
  | [] => none
  | (k2, v) :: rest => if k2 = k then some v else lookupStr rest k

/-- Lower-casing over the character list (strings.ToLower for the ASCII names
this file handles). -/
def strToLower (s : String) : String := ⟨s.data.map Char.toLower⟩

def maxInt64 : Int := 9223372036854775807

def minInt64 : Int := -9223372036854775808

/-- Go int64 arithmetic wraps around two's complement. -/
def wrap64 (x : Int) : Int :=
  (x + 9223372036854775808) % 18446744073709551616 - 9223372036854775808

/-- Interval payload of tree.DInterval: duration.Duration with months, days
and a nanosecond component (each an int64 in Go). -/
structure GoDuration where
  months : Int
  days : Int
  nanos : Int
deriving DecidableEq

def nanosPerSecond : Int := 1000000000

def nanosPerDay : Int := 86400 * nanosPerSecond

def nanosPerMonth : Int := 30 * nanosPerDay

/-- Modelled from the spec: duration.Duration.Encode — the signed
sub-day/day/month components are encoded to one signed nanosecond duration;
encoding fails when that total overflows int64. -/
def durationEncode (iv : GoDuration) : Except String Int :=
  let total := iv.months * nanosPerMonth + iv.days * nanosPerDay + iv.nanos
  if maxInt64 < total ∨ total < minInt64 then .error "interval: overflow during Encode"
  else .ok total

/-- intervalToDuration (src/pkg/sql/set_var.go line 407): the encoded total
nanoseconds, as a Go time.Duration. -/
def intervalToDuration (interval : GoDuration) : Except String Int :=
  match durationEncode interval with
  | .error e => .error e
  | .ok nanos => .ok nanos

/-- Modelled from the spec: Go time.Duration.String rendering for the duration
values this core produces (a zero duration renders as "0s"). -/
def goDurationString (ns : Int) : String :=
  if ns = 0 then "0s"
  else if ns % nanosPerSecond = 0 then toString (ns / nanosPerSecond) ++ "s"
  else if ns % 1000000 = 0 then toString (ns / 1000000) ++ "ms"
  else toString ns ++ "ns"

/-- Arbitrary-precision decimal (apd.Decimal): the value is
coeff * 10 ^ exp. -/
structure ApdDec where
  coeff : Int
  exp : Int
deriving DecidableEq

/-- The exact rational value of a decimal. -/
def ApdDec.toRat (d : ApdDec) : ℚ :=
  (d.coeff : ℚ) * (10 : ℚ) ^ d.exp.toNat / (10 : ℚ) ^ (-d.exp).toNat

/-- Modelled from the spec: exact decimal multiplication (apd ErrDecimal.Mul
under the exact decimal context — "exact (non-lossy) decimal
multiplication"). -/
def ApdDec.mul (a b : ApdDec) : ApdDec := ⟨a.coeff * b.coeff, a.exp + b.exp⟩

/-- Modelled from the spec: apd Decimal.Int64 through the error-accumulating
context — it fails when the decimal has a fractional part or falls outside
the int64 range, and the caller only observes that some arithmetic error
accumulated. -/
def apdInt64 (d : ApdDec) : Except String Int :=
  if 0 ≤ d.exp then
    let v := d.coeff * 10 ^ d.exp.toNat
    if maxInt64 < v then .error "greater than max int64"
    else if v < minInt64 then .error "less than min int64"
    else .ok v
  else
    if (10 ^ (-d.exp).toNat : Int) ∣ d.coeff then
      let v := Int.tdiv d.coeff (10 ^ (-d.exp).toNat)
      if maxInt64 < v then .error "greater than max int64"
      else if v < minInt64 then .error "less than min int64"
      else .ok v
    else .error "has fractional part"

/-- Modelled from the spec: apd decimal rendering, used where the decimal
value appears inside error text. -/
def ApdDec.render (d : ApdDec) : String :=
  if d.exp = 0 then toString d.coeff else toString d.coeff ++ "E" ++ toString d.exp

/-- time.Location: only the zone name and its fixed offset in seconds are
observable in this core. -/
structure Location where
  name : String
  offset : Int
deriving DecidableEq

/-- SQL value (tree.Datum) shapes distinguished by this file's converters. -/
inductive Datum where
  | dString (s : String)
  | dInterval (iv : GoDuration)
  | dInt (n : Int)
  | dFloat (x : Float)
  | dDecimal (d : ApdDec)
  | dBool (b : Bool)

/-- Modelled from the spec: the shared value-to-text facility (the datum
String() renderings used for error text and fixed-offset zone labels). -/
def renderDatum : Datum → String
  | .dString s => "\x27" ++ s ++ "\x27"
  | .dInterval iv =>
      "\x27" ++ toString iv.months ++ " mons " ++ toString iv.days ++ " days " ++
      toString iv.nanos ++ " ns\x27"
  | .dInt n => toString n
  | .dFloat x => toString x
  | .dDecimal d => ApdDec.render d
  | .dBool b => toString b

/-- A type-checked deferred expression: evaluating it either yields a datum or
fails (evaluation is an opaque external capability that may fail). -/
inductive TypedExpr where
  | datum (d : Datum)
  | failing (e : PgError)

/-- TypedExpr.Eval: an already-evaluated datum evaluates to itself. -/
def TypedExpr.eval : TypedExpr → Except PgError Datum
  | .datum d => .ok d
  | .failing e => .error e

/-- TypedExpr.String, as used for the offending-value text of errors. -/
def TypedExpr.render : TypedExpr → String
  | .datum d => renderDatum d
  | .failing _ => "(invalid expression)"

/-- Modelled from the spec: the Go conversion int64(f) of a float64 product
(truncation toward zero). -/
def goFloatToInt64 (f : Float) : Int :=
  if f < 0 then -(Int.ofNat (Float.toUInt64 (-f)).toNat)
  else Int.ofNat (Float.toUInt64 f).toNat

/-- Digit-run accumulator over a character list. -/
def digitsLoop : List Char → Nat → Nat × List Char
  | c :: cs, acc =>
      if c.isDigit then digitsLoop cs (acc * 10 + (c.toNat - 48)) else (acc, c :: cs)
  | [], acc => (acc, [])

/-- Parse a leading non-empty digit run; none when the input does not start
with a digit. -/
def parseNatDigits : List Char → Option (Nat × List Char)
  | c :: cs => if c.isDigit then some (digitsLoop (c :: cs) 0) else none
  | [] => none

/-- Modelled from the spec: timeutil.TimeZoneStringToLocation — resolves a
zone name against the time-zone name database, accepting ISO8601-style signed
whole-hour offsets for bare offsets. -/
def timeZoneStringToLocation (s : String) : Except String Location :=
  if s = "UTC" then .ok ⟨"UTC", 0⟩
  else
    match s.data with
    | '+' :: cs =>
      match parseNatDigits cs with
      | some (n, []) => .ok ⟨s, (n : Int) * 3600⟩
      | _ => .error ("cannot resolve time zone name " ++ s)
    | '-' :: cs =>
      match parseNatDigits cs with
      | some (n, []) => .ok ⟨s, -((n : Int) * 3600)⟩
      | _ => .error ("cannot resolve time zone name " ++ s)
    | _ => .error ("cannot resolve time zone name " ++ s)

/-- Modelled from the spec: timeutil.FixedOffsetTimeZoneToLocation —
synthesizes a fixed-offset pseudo-zone from the integer-seconds offset,
labeled with the original value's textual form. -/
def fixedOffsetTimeZoneToLocation (offset : Int) (origRepr : String) : Location :=
  ⟨"fixed offset:" ++ toString offset ++ " (" ++ origRepr ++ ")", offset⟩

/-- IntervalStyle session setting (duration.IntervalStyle). -/
inductive IntervalStyle where
  | postgres
  | iso8601
  | sqlStandard
deriving DecidableEq

/-- sessionDataMutator: the per-scope-level store of the session fields that
this file's setters touch. -/
structure SessionDataMutator where
  intervalStyle : IntervalStyle
  stmtTimeout : Int
  lockTimeout : Int
  idleInSessionTimeout : Int
  idleInTransactionSessionTimeout : Int
  location : Location
deriving DecidableEq

/-- m.data.GetIntervalStyle(). -/
def SessionDataMutator.GetIntervalStyle (m : SessionDataMutator) : IntervalStyle :=
  m.intervalStyle

def SessionDataMutator.SetStmtTimeout (m : SessionDataMutator) (d : Int) : SessionDataMutator :=
  {m with stmtTimeout := d}

def SessionDataMutator.SetLockTimeout (m : SessionDataMutator) (d : Int) : SessionDataMutator :=
  {m with lockTimeout := d}

def SessionDataMutator.SetIdleInSessionTimeout (m : SessionDataMutator) (d : Int) :
    SessionDataMutator :=
  {m with idleInSessionTimeout := d}

def SessionDataMutator.SetIdleInTransactionSessionTimeout (m : SessionDataMutator) (d : Int) :
    SessionDataMutator :=
  {m with idleInTransactionSessionTimeout := d}

def SessionDataMutator.SetLocation (m : SessionDataMutator) (loc : Location) :
    SessionDataMutator :=
  {m with location := loc}

/-- A buffered client notice (pgnotice.NewWithSeverityf). -/
structure Notice where
  severity : String
  message : String
deriving DecidableEq

/-- Process-wide settings snapshot consumed by global-default providers. -/
abbrev Settings := List (String × String)

/-- The session/planner state observable by this file at execution time:
transaction mode, the MutatorSet (head = topmost mutator), buffered notices,
the session-configured defaults and the settings snapshot. -/
structure RunState where
  txnImplicit : Bool
  mutators : List SessionDataMutator
  notices : List Notice
  defaults : List (String × String)
  settings : Settings

/-- sessionVar descriptor (the registry entry): the nilable converter/setter
strategy bundle. The setter strategies that bypass per-mutator application
act on the whole run state, as they do through the Go contexts. -/
structure SessionVar where
  GetStringVal : Option (List TypedExpr → Except PgError String)
  Set : Option (SessionDataMutator → String → Except PgError SessionDataMutator)
  RuntimeSet : Option (Bool → String → RunState → RunState × Option PgError)
  SetWithPlanner : Option (Bool → String → RunState → RunState × Option PgError)
  GlobalDefault : Option (Settings → String)

/-- setVarNode (src/pkg/sql/set_var.go line 33); typedValues = none means
RESET. -/
structure SetVarNode where
  name : String
  isLocal : Bool
  v : SessionVar
  typedValues : Option (List TypedExpr)

/-- The notice buffered for the implicit-transaction SET LOCAL no-op
(src/pkg/sql/set_var.go lines 171-177). -/
def setLocalImplicitTxnNotice : Notice :=
  ⟨"WARNING", "SET LOCAL can only be used in transaction blocks"⟩

/-- The notice buffered when a dummy session variable is set
(src/pkg/sql/set_var.go lines 107-110). -/
def dummyVarNotice (name : String) : Notice :=
  ⟨"WARNING", "setting session var " ++ goQuote name ++ " is a no-op"⟩

/-- Modelled from the spec: the MutatorSet "apply to all, collecting the first
error" operation (sessionDataMutatorIterator.applyOnEachMutatorError): the
function is applied to the mutators in order, the first failure short-circuits
and its error wins, and updates already applied to earlier mutators stand. -/
def applyOnEachMutatorErrorList (f : SessionDataMutator → Except PgError SessionDataMutator) :
    List SessionDataMutator → List SessionDataMutator × Option PgError
  | [] => ([], none)
  | m :: ms =>
    match f m with
    | .error e => (m :: ms, some e)
    | .ok m2 =>
      let r := applyOnEachMutatorErrorList f ms
      (m2 :: r.1, r.2)

/-- Modelled from the spec: the MutatorSet "apply to topmost" operation
(sessionDataMutatorIterator.applyOnTopMutator): only the topmost mutator is
touched. -/
def applyOnTopMutatorList (f : SessionDataMutator → Except PgError SessionDataMutator) :
    List SessionDataMutator → List SessionDataMutator × Option PgError
  | [] => ([], none)
  | m :: ms =>
    match f m with
    | .error e => (m :: ms, some e)
    | .ok m2 => (m2 :: ms, none)

/-- applyOnSessionDataMutators (src/pkg/sql/set_var.go line 164): scoping rule
for the generic setter path — LOCAL inside an implicit transaction is a no-op
that buffers a warning; LOCAL otherwise targets the topmost mutator; SESSION
targets every mutator. -/
def applyOnSessionDataMutators (st : RunState) (isLocal : Bool)
    (applyFunc : SessionDataMutator → Except PgError SessionDataMutator) :
    RunState × Option PgError :=
  if isLocal then
    if st.txnImplicit then
      ({st with notices := st.notices ++ [setLocalImplicitTxnNotice]}, none)
    else
      let r := applyOnTopMutatorList applyFunc st.mutators
      ({st with mutators := r.1}, r.2)
  else
    let r := applyOnEachMutatorErrorList applyFunc st.mutators
    ({st with mutators := r.1}, r.2)

/-- getSessionVarDefaultString (src/pkg/sql/set_var.go line 188): the
session-configured default first, then the global default; the first component
is false when neither exists. -/
def getSessionVarDefaultString (varName : String) (v : SessionVar)
    (defaults : List (String × String)) (settings : Settings) : Bool × String :=
  match lookupStr defaults varName with
  | some defVal => (true, defVal)
  | none =>
    match v.GlobalDefault with
    | some g => (true, g settings)
    | none => (false, "")

/-- Modelled from the spec: paramparse.DatumAsString — the generic
single-value textual coercion used by the fallback converter. -/
def datumAsString (name : String) (value : TypedExpr) : Except PgError String :=
  match TypedExpr.eval value with
  | .error e => .error e
  | .ok (.dString s) => .ok s
  | .ok d => .error (newVarValueError name (renderDatum d) [])

/-- getStringVal (src/pkg/sql/set_var.go line 204): the generic converter
requires exactly one evaluated value. -/
def getStringVal (name : String) (values : List TypedExpr) : Except PgError String :=
  match values with
  | [value0] => datumAsString name value0
  | _ => .error (newSingleArgVarError name)

/-- Modelled from the spec: paramparse.DatumAsInt. -/
def datumAsInt (name : String) (value : TypedExpr) : Except PgError Int :=
  match TypedExpr.eval value with
  | .error e => .error e
  | .ok (.dInt n) => .ok n
  | .ok d => .error (newVarValueError name (renderDatum d) [])

/-- getIntVal (src/pkg/sql/set_var.go line 211). -/
def getIntVal (name : String) (values : List TypedExpr) : Except PgError Int :=
  match values with
  | [value0] => datumAsInt name value0
  | _ => .error (newSingleArgVarError name)

/-- timeZoneVarGetStringVal (src/pkg/sql/set_var.go line 218) up to the final
loc.String(): the resolved time.Location. A named zone resolves through the
zone database; an interval is encoded and truncated to whole seconds; an
integer is whole hours; a float and a decimal are fractional hours (the
decimal exactly, failing on any accumulated arithmetic error); other types are
value errors. When no named zone was resolved, a fixed-offset pseudo-zone is
synthesized, labeled with the datum's textual form. -/
def timeZoneVarGetLoc (values : List TypedExpr) : Except PgError Location :=
  match values with
  | [value0] =>
    match TypedExpr.eval value0 with
    | .error e => .error e
    | .ok d =>
      match d with
      | .dString location =>
        match timeZoneStringToLocation location with
        | .error e =>
          .error (wrapSetVarError "timezone" (TypedExpr.render value0)
            ("cannot find time zone " ++ goQuote location ++ ": " ++ e))
        | .ok loc => .ok loc
      | .dInterval iv =>
        match durationEncode iv with
        | .error e => .error (wrapSetVarError "timezone" (TypedExpr.render value0) e)
        | .ok enc =>
          .ok (fixedOffsetTimeZoneToLocation (Int.tdiv enc nanosPerSecond) (renderDatum d))
      | .dInt n =>
        .ok (fixedOffsetTimeZoneToLocation (wrap64 (n * 60 * 60)) (renderDatum d))
      | .dFloat x =>
        .ok (fixedOffsetTimeZoneToLocation (goFloatToInt64 (x * 60.0 * 60.0)) (renderDatum d))
      | .dDecimal v =>
        let sixty := ApdDec.mul ⟨60, 0⟩ ⟨60, 0⟩
        let scaled := ApdDec.mul sixty v
        match apdInt64 scaled with
        | .error _ =>
          .error (wrapSetVarError "timezone" (TypedExpr.render value0)
            ("time zone value " ++ ApdDec.render scaled ++ " would overflow an int64"))
        | .ok offset => .ok (fixedOffsetTimeZoneToLocation offset (renderDatum d))
      | .dBool _ => .error (newVarValueError "timezone" (TypedExpr.render value0) [])
  | _ => .error (newSingleArgVarError "timezone")

/-- timeZoneVarGetStringVal (src/pkg/sql/set_var.go line 218): the resolved
zone's canonical string identifier. -/
def timeZoneVarGetStringVal (values : List TypedExpr) : Except PgError String :=
  match timeZoneVarGetLoc values with
  | .error e => .error e
  | .ok loc => .ok loc.name

/-- timeZoneVarSet (src/pkg/sql/set_var.go line 277). -/
def timeZoneVarSet (m : SessionDataMutator) (s : String) :
    Except PgError SessionDataMutator :=
  match timeZoneStringToLocation s with
  | .error e => .error (wrapSetVarError "TimeZone" s e)
  | .ok loc => .ok (SessionDataMutator.SetLocation m loc)

/-- makeTimeoutVarGetter (src/pkg/sql/set_var.go line 290): requires exactly
one value; text passes through unchanged, an interval becomes its nanosecond
duration, an integer is whole milliseconds, and any other type flows a zero
duration through; the resulting duration is rendered as a Go duration
string. -/
def makeTimeoutVarGetter (varName : String) (values : List TypedExpr) :
    Except PgError String :=
  match values with
  | [value0] =>
    match TypedExpr.eval value0 with
    | .error e => .error e
    | .ok d =>
      match d with
      | .dString s => .ok s
      | .dInterval iv =>
        match intervalToDuration iv with
        | .error e => .error (wrapSetVarError varName (TypedExpr.render value0) e)
        | .ok timeout => .ok (goDurationString timeout)
      | .dInt n => .ok (goDurationString (wrap64 (n * 1000000)))
      | _ => .ok (goDurationString 0)
  | _ => .error (newSingleArgVarError varName)

/-- Modelled from the spec: tree.ParseDIntervalWithTypeMetadata under the
millisecond-granularity duration-field hint — a bare signed number is read as
whole milliseconds, and a number with a unit suffix (ns, ms, s) is read in
that unit; the interval-display style does not change these basic forms. -/
def parseDIntervalWithTypeMetadata (_style : IntervalStyle) (s : String) :
    Except String GoDuration :=
  let core := fun (cs : List Char) (neg : Bool) =>
    match parseNatDigits cs with
    | none => Except.error ("could not parse " ++ goQuote s ++ " as type interval")
    | some (n, suffix) =>
      let signed : Int := if neg then -(n : Int) else (n : Int)
      match suffix with
      | [] => Except.ok (⟨0, 0, signed * 1000000⟩ : GoDuration)
      | ['n', 's'] => Except.ok (⟨0, 0, signed⟩ : GoDuration)
      | ['m', 's'] => Except.ok (⟨0, 0, signed * 1000000⟩ : GoDuration)
      | ['s'] => Except.ok (⟨0, 0, signed * nanosPerSecond⟩ : GoDuration)
      | _ => Except.error ("could not parse " ++ goQuote s ++ " as type interval")
  match s.data with
  | '-' :: cs => core cs true
  | cs => core cs false

/-- validateTimeoutVar (src/pkg/sql/set_var.go line 321): parse the string as
an interval with the session's interval style and the millisecond field hint,
convert to a duration, and reject negative durations. -/
def validateTimeoutVar (style : IntervalStyle) (timeString : String) (varName : String) :
    Except PgError Int :=
  match parseDIntervalWithTypeMetadata style timeString with
  | .error e => .error (wrapSetVarError varName timeString e)
  | .ok interval =>
    match intervalToDuration interval with
    | .error e => .error (wrapSetVarError varName timeString e)
    | .ok timeout =>
      if timeout < 0 then
        .error (wrapSetVarError varName timeString
          (varName ++ " cannot have a negative duration"))
      else .ok timeout

/-- stmtTimeoutVarSet (src/pkg/sql/set_var.go line 349). -/
def stmtTimeoutVarSet (m : SessionDataMutator) (s : String) :
    Except PgError SessionDataMutator :=
  match validateTimeoutVar (SessionDataMutator.GetIntervalStyle m) s "statement_timeout" with
  | .error e => .error e
  | .ok timeout => .ok (SessionDataMutator.SetStmtTimeout m timeout)

/-- lockTimeoutVarSet (src/pkg/sql/set_var.go line 363). -/
def lockTimeoutVarSet (m : SessionDataMutator) (s : String) :
    Except PgError SessionDataMutator :=
  match validateTimeoutVar (SessionDataMutator.GetIntervalStyle m) s "lock_timeout" with
  | .error e => .error e
  | .ok timeout => .ok (SessionDataMutator.SetLockTimeout m timeout)

/-- idleInSessionTimeoutVarSet (src/pkg/sql/set_var.go line 377). -/
def idleInSessionTimeoutVarSet (m : SessionDataMutator) (s : String) :
    Except PgError SessionDataMutator :=
  match validateTimeoutVar (SessionDataMutator.GetIntervalStyle m) s
      "idle_in_session_timeout" with
  | .error e => .error e
  | .ok timeout => .ok (SessionDataMutator.SetIdleInSessionTimeout m timeout)

/-- idleInTransactionSessionTimeoutVarSet (src/pkg/sql/set_var.go line 391). -/
def idleInTransactionSessionTimeoutVarSet (m : SessionDataMutator) (s : String) :
    Except PgError SessionDataMutator :=
  match validateTimeoutVar (SessionDataMutator.GetIntervalStyle m) s
      "idle_in_transaction_session_timeout" with
  | .error e => .error e
  | .ok timeout => .ok (SessionDataMutator.SetIdleInTransactionSessionTimeout m timeout)

/-- startExec lines 105-111: a dummy session variable buffers a client-visible
WARNING notice before the rest of the pipeline (the telemetry counter is out
of scope). -/
def applyDummyNotice (dummyVars : List String) (name : String) (st : RunState) : RunState :=
  if name ∈ dummyVars then {st with notices := st.notices ++ [dummyVarNotice name]} else st

/-- startExec lines 112-119: evaluate every deferred expression left to right,
failing fast on the first evaluation error. -/
def evalTypedExprs : List TypedExpr → Except PgError (List Datum)
  | [] => .ok []
  | tv :: tvs =>
    match TypedExpr.eval tv with
    | .error e => .error e
    | .ok d =>
      match evalTypedExprs tvs with
      | .error e => .error e
      | .ok ds => .ok (d :: ds)

/-- startExec lines 112-137: derive the final string value — for an
assignment, evaluate the deferred expressions and run the custom converter
(or the generic fallback); for RESET, resolve the default lazily at execution
time, ignoring whether one still exists. -/
def resolveStrVal (n : SetVarNode) (st : RunState) : Except PgError String :=
  match n.typedValues with
  | some tvs =>
    match evalTypedExprs tvs with
    | .error e => .error e
    | .ok ds =>
      match n.v.GetStringVal with
      | some getSV => getSV (ds.map TypedExpr.datum)
      | none => getStringVal n.name (ds.map TypedExpr.datum)
  | none => .ok (getSessionVarDefaultString n.name n.v st.defaults st.settings).2

/-- The Go runtime panic from invoking a nil Set strategy; unreachable for
plans produced by SetVar, which rejects descriptors with no strategy. -/
def nilSetterFault : PgError :=
  ⟨"Internal", "runtime error: invalid memory address or nil pointer dereference", "", ""⟩

/-- startExec lines 139-159: strategy dispatch — RuntimeSet first, else
SetWithPlanner, else the generic Set applied through the scoping rule. -/
def dispatchSetter (n : SetVarNode) (st : RunState) (strVal : String) :
    RunState × Option PgError :=
  match n.v.RuntimeSet with
  | some rs => rs n.isLocal strVal st
  | none =>
    match n.v.SetWithPlanner with
    | some sp => sp n.isLocal strVal st
    | none =>
      match n.v.Set with
      | some setFn => applyOnSessionDataMutators st n.isLocal (fun m => setFn m strVal)
      | none => (st, some nilSetterFault)

/-- startExec (src/pkg/sql/set_var.go line 102). -/
def startExec (dummyVars : List String) (n : SetVarNode) (st0 : RunState) :
    RunState × Option PgError :=
  let st := applyDummyNotice dummyVars n.name st0
  match resolveStrVal n st with
  | .error e => (st, some e)
  | .ok strVal => dispatchSetter n st strVal

/-- An unevaluated SET value expression: the DEFAULT sentinel, an expression
that type-checks to a deferred typed expression, or one that fails type
checking with the given rendering and error. -/
inductive Expr where
  | defaultVal
  | typed (t : TypedExpr)
  | illTyped (render : String) (e : PgError)

/-- Expr.String, the offending literal text used in wrapped errors. -/
def Expr.render : Expr → String
  | .defaultVal => "DEFAULT"
  | .typed t => TypedExpr.render t
  | .illTyped r _ => r

/-- Modelled from the spec: planner.analyzeExpr — type-check one value
expression against the generic textual type. -/
def analyzeExpr : Expr → Except PgError TypedExpr
  | .defaultVal => .error ⟨"Syntax", "DEFAULT is not allowed in this context", "", ""⟩
  | .typed t => .ok t
  | .illTyped _ e => .error e

/-- SetVar lines 70-83: type-check each value left to right; a failure is
wrapped into a value error naming the offending literal text. -/
def analyzeValues (name : String) : List Expr → Except PgError (List TypedExpr)
  | [] => .ok []
  | e :: es =>
    match analyzeExpr e with
    | .error err => .error (wrapSetVarError name (Expr.render e) err.message)
    | .ok t =>
      match analyzeValues name es with
      | .error err2 => .error err2
      | .ok ts => .ok (t :: ts)

/-- SetVar lines 59-68: the request is RESET when no values are supplied or
the single value is the DEFAULT sentinel. -/
def isResetValues : List Expr → Bool
  | [] => true
  | [.defaultVal] => true
  | _ => false

/-- tree.SetVar: the parsed SET {SESSION | LOCAL} statement. -/
structure TreeSetVar where
  name : String
  isLocal : Bool
  values : List Expr

/-- Modelled from the spec: getSessionVar registry lookup with missingOk =
false — unknown names fail with an unrecognized-parameter error (lookup keys
are already lower-cased by the caller). -/
def getSessionVar (registry : List (String × SessionVar)) (name : String) :
    Except PgError SessionVar :=
  match lookupStr registry name with
  | some v => .ok v
  | none =>
    .error ⟨"UndefinedObject", "unrecognized configuration parameter " ++ goQuote name, "", ""⟩

/-- SetVar (src/pkg/sql/set_var.go line 44): compile a SET/RESET statement
into a plan node; pure — it mutates no session state. -/
def SetVar (registry : List (String × SessionVar)) (defaults : List (String × String))
    (n : TreeSetVar) : Except PgError SetVarNode :=
  if n.name = "" then
    .error ⟨"Syntax", "invalid variable name: " ++ goQuote n.name, "", ""⟩
  else
    let name := strToLower n.name
    match getSessionVar registry name with
    | .error e => .error e
    | .ok v =>
      let typedValuesE : Except PgError (Option (List TypedExpr)) :=
        if isResetValues n.values then .ok none
        else
          match analyzeValues name n.values with
          | .error e => .error e
          | .ok ts => .ok (some ts)
      match typedValuesE with
      | .error e => .error e
      | .ok typedValues =>
        if v.Set.isNone && v.RuntimeSet.isNone && v.SetWithPlanner.isNone then
          .error (newCannotChangeParameterError name)
        else
          if typedValues.isNone && (lookupStr defaults name).isNone &&
              v.GlobalDefault.isNone then
            .error (newCannotChangeParameterError name)
          else
            .ok ⟨name, n.isLocal, v, typedValues⟩

/-- Composition used to exercise statement_timeout end to end: run the timeout
converter, then the statement_timeout setter on its output. -/
def setStmtTimeoutFromValues (m : SessionDataMutator) (values : List TypedExpr) :
    Except PgError SessionDataMutator :=
  match makeTimeoutVarGetter "statement_timeout" values with
  | .error e => .error e
  | .ok s => stmtTimeoutVarSet m s

/-- The datum shapes that fall into the timeout converter's default case
(neither text, interval, nor integer). -/
def timeoutUnsupportedType : Datum → Bool
  | .dString _ => false
  | .dInterval _ => false
  | .dInt _ => false
  | _ => true

/-- A concrete error used by the witnesses. -/
def err0 : PgError := ⟨"Internal", "probe failure", "", ""⟩

/-- A concrete session-data mutator used by the witnesses. -/
def m0 : SessionDataMutator := ⟨.postgres, 0, 0, 0, 0, ⟨"UTC", 0⟩⟩

/-- A mutator marked (through its stmtTimeout field) so that probeSet fails on
it. -/
def mPoison : SessionDataMutator := {m0 with stmtTimeout := 99}

/-- A concrete generic setter that fails exactly on mPoison and otherwise
records the applied value in the location name. -/
def probeSet (m : SessionDataMutator) (s : String) : Except PgError SessionDataMutator :=
  if m.stmtTimeout = 99 then .error err0 else .ok (SessionDataMutator.SetLocation m ⟨s, 0⟩)

/-- A concrete RuntimeSet strategy that records its invocation in the notice
buffer. -/
def rtSetterProbe : Bool → String → RunState → RunState × Option PgError :=
  fun _ s st => ({st with notices := st.notices ++ [⟨"NOTICE", "runtime setter got " ++ s⟩]}, none)

/-- A concrete SetWithPlanner strategy that always fails, to make precedence
observable. -/
def plSetterProbe : Bool → String → RunState → RunState × Option PgError :=
  fun _ _ st => (st, some err0)

/-- A descriptor where all three strategies are present. -/
def vRuntime : SessionVar :=
  ⟨none, some (fun m _ => .ok m), some rtSetterProbe, some plSetterProbe, none⟩

/-- A plan node assigning the value on through the descriptor vRuntime. -/
def nodeRt : SetVarNode := ⟨"x", false, vRuntime, some [.datum (.dString "on")]⟩

/-- An empty run state. -/
def st0 : RunState := ⟨false, [], [], [], []⟩

/-- A descriptor with only the generic setter. -/
def vGeneric : SessionVar :=
  ⟨none, some (fun m s => .ok (SessionDataMutator.SetLocation m ⟨s, 0⟩)), none, none, none⟩

/-- A RESET plan node for a parameter with no global default. -/
def nodeReset : SetVarNode := ⟨"x", false, vGeneric, none⟩

/-- A run state with one mutator and no session defaults. -/
def st1 : RunState := ⟨false, [m0], [], [], []⟩

/-- A descriptor exposing no setter strategy at all. -/
def vAllNil : SessionVar := ⟨none, none, none, none, none⟩

/-- A one-entry registry holding the immutable parameter v. -/
def cexRegistry : List (String × SessionVar) := [("v", vAllNil)]

/-- An assignment to v whose single value expression fails type checking. -/
def cexAst : TreeSetVar := ⟨"v", false, [.illTyped "$1" ⟨"Internal", "boom", "", ""⟩]⟩

/-- A decimal equal to 2^63 (hours), whose scaling by 3600 overflows int64
seconds. -/
def bigDec : ApdDec := ⟨9223372036854775808, 0⟩

/-- When every application succeeds, the apply-to-all traversal updates every
mutator and reports no error. -/
theorem applyOnEach_ok_all (f : SessionDataMutator → Except PgError SessionDataMutator)
    (ms : List SessionDataMutator) (h : ∀ m ∈ ms, exceptIsOk (f m) = true) :
    applyOnEachMutatorErrorList f ms = (ms.map (applyOk f), none) := by
  induction ms with
  | nil => rfl
  | cons m ms ih =>
    have hm := h m (by simp)
    have hrest : ∀ m2 ∈ ms, exceptIsOk (f m2) = true := fun m2 hm2 => h m2 (by simp [hm2])
    cases hfm : f m with
    | error e => rw [hfm] at hm; simp [exceptIsOk] at hm
    | ok m2 =>
      simp [applyOnEachMutatorErrorList, hfm, ih hrest, applyOk]

/-- The apply-to-all traversal stops at the first failing mutator: earlier
mutators keep the applied update, the failing one and all later ones are
untouched, and the first error is reported. -/
theorem applyOnEach_first_error (f : SessionDataMutator → Except PgError SessionDataMutator)
    (pre post : List SessionDataMutator) (bad : SessionDataMutator) (e : PgError)
    (hpre : ∀ m ∈ pre, exceptIsOk (f m) = true) (hbad : f bad = .error e) :
    applyOnEachMutatorErrorList f (pre ++ bad :: post)
      = (pre.map (applyOk f) ++ bad :: post, some e) := by
  induction pre with
  | nil => simp [applyOnEachMutatorErrorList, hbad]
  | cons m pre ih =>
    have hm := hpre m (by simp)
    cases hfm : f m with
    | error e2 => rw [hfm] at hm; simp [exceptIsOk] at hm
    | ok m2 =>
      have ihh := ih (fun m2 hm2 => hpre m2 (by simp [hm2]))
      simp [applyOnEachMutatorErrorList, hfm, ihh, applyOk]

/-- Claim C1: a SET SESSION through the generic setter path applies the same
resolved string to every mutator in order; the first failing mutator aborts
the traversal, its error becomes the statement error, and mutators earlier in
the order keep the already-applied value — no rollback is performed. -/
theorem setSessionAppliesInOrderWithoutRollback
    (setFn : SessionDataMutator → String → Except PgError SessionDataMutator) (s : String)
    (ti : Bool) (ns : List Notice) (dfs : List (String × String)) (stg : Settings)
    (pre post : List SessionDataMutator) (bad : SessionDataMutator) (e : PgError)
    (hpre : ∀ m ∈ pre, exceptIsOk (setFn m s) = true)
    (hbad : setFn bad s = .error e) :
    applyOnSessionDataMutators ⟨ti, pre ++ bad :: post, ns, dfs, stg⟩ false
        (fun m => setFn m s)
      = (⟨ti, pre.map (applyOk (fun m => setFn m s)) ++ bad :: post, ns, dfs, stg⟩, some e)
    ∧ ∀ ms : List SessionDataMutator, (∀ m ∈ ms, exceptIsOk (setFn m s) = true) →
        applyOnSessionDataMutators ⟨ti, ms, ns, dfs, stg⟩ false (fun m => setFn m s)
          = (⟨ti, ms.map (applyOk (fun m => setFn m s)), ns, dfs, stg⟩, none) := by
  constructor
  · have h := applyOnEach_first_error (fun m => setFn m s) pre post bad e hpre hbad
    simp [applyOnSessionDataMutators, h]
  · intro ms hok
    have h := applyOnEach_ok_all (fun m => setFn m s) ms hok
    simp [applyOnSessionDataMutators, h]

/-- Witness for C1: on a four-mutator set whose third mutator rejects the
value, the first two keep the applied value, the error surfaces, and the last
mutator is untouched. -/
theorem setSessionAppliesInOrderWithoutRollback_witness :
    applyOnSessionDataMutators ⟨false, [m0, m0] ++ mPoison :: [m0], [], [], []⟩ false
        (fun m => probeSet m "v1")
      = (⟨false, [m0, m0].map (applyOk (fun m => probeSet m "v1")) ++ mPoison :: [m0],
          [], [], []⟩, some err0) :=
  (setSessionAppliesInOrderWithoutRollback probeSet "v1" false [] [] [] [m0, m0] [m0]
    mPoison err0 (by decide) (by rfl)).1

/-- Claim C2: SET LOCAL on the generic setter path — inside an implicit
transaction it changes no mutator, buffers exactly one WARNING notice and
returns no error; inside an explicit transaction it applies the setter to the
topmost mutator only, leaving every other mutator unchanged. -/
theorem setLocalScopingBehavior
    (f : SessionDataMutator → Except PgError SessionDataMutator)
    (ms rest : List SessionDataMutator) (top : SessionDataMutator)
    (ns : List Notice) (dfs : List (String × String)) (stg : Settings) :
    applyOnSessionDataMutators ⟨true, ms, ns, dfs, stg⟩ true f
      = (⟨true, ms, ns ++ [setLocalImplicitTxnNotice], dfs, stg⟩, none)
    ∧ setLocalImplicitTxnNotice.severity = "WARNING"
    ∧ applyOnSessionDataMutators ⟨false, top :: rest, ns, dfs, stg⟩ true f
      = (⟨false, applyOk f top :: rest, ns, dfs, stg⟩, exceptErr (f top)) := by
  refine ⟨rfl, rfl, ?_⟩
  cases hft : f top with
  | error e =>
    simp [applyOnSessionDataMutators, applyOnTopMutatorList, hft, applyOk, exceptErr]
  | ok m2 =>
    simp [applyOnSessionDataMutators, applyOnTopMutatorList, hft, applyOk, exceptErr]

/-- Claim C3: per execution at most one setter strategy runs, and the choice
follows the fixed precedence RuntimeSet, then SetWithPlanner, then the
generic setter; in particular when RuntimeSet is non-nil the execution result
is RuntimeSet's alone, whatever the other strategies are. -/
theorem setterStrategyPrecedence (dummyVars : List String) (n : SetVarNode) (st : RunState)
    (s : String)
    (hres : resolveStrVal n (applyDummyNotice dummyVars n.name st) = .ok s) :
    (∀ rs, n.v.RuntimeSet = some rs →
        startExec dummyVars n st = rs n.isLocal s (applyDummyNotice dummyVars n.name st))
  ∧ (∀ sp, n.v.RuntimeSet = none → n.v.SetWithPlanner = some sp →
        startExec dummyVars n st = sp n.isLocal s (applyDummyNotice dummyVars n.name st))
  ∧ (∀ setFn, n.v.RuntimeSet = none → n.v.SetWithPlanner = none → n.v.Set = some setFn →
        startExec dummyVars n st
          = applyOnSessionDataMutators (applyDummyNotice dummyVars n.name st) n.isLocal
              (fun m => setFn m s)) := by
  refine ⟨?_, ?_, ?_⟩
  · intro rs hrs
    simp [startExec, hres, dispatchSetter, hrs]
  · intro sp hrs hsp
    simp [startExec, hres, dispatchSetter, hrs, hsp]
  · intro setFn hrs hsp hset
    simp [startExec, hres, dispatchSetter, hrs, hsp, hset]

/-- Witness for C3: a descriptor carrying all three strategies executes only
its RuntimeSet strategy. -/
theorem setterStrategyPrecedence_witness :
    startExec [] nodeRt st0 = rtSetterProbe false "on" st0 :=
  (setterStrategyPrecedence [] nodeRt st0 "on" rfl).1 rtSetterProbe rfl

/-- Buffering the dummy-variable notice does not change the session defaults
visible to default resolution. -/
theorem applyDummyNotice_defaults (dummyVars : List String) (name : String) (st : RunState) :
    (applyDummyNotice dummyVars name st).defaults = st.defaults := by
  unfold applyDummyNotice; split <;> rfl

/-- Buffering the dummy-variable notice does not change the settings snapshot
visible to default resolution. -/
theorem applyDummyNotice_settings (dummyVars : List String) (name : String) (st : RunState) :
    (applyDummyNotice dummyVars name st).settings = st.settings := by
  unfold applyDummyNotice; split <;> rfl

/-- Claim C10: a RESET plan that finds neither a session-configured default
nor a global-default provider at execution time does not fail — the
missing-default flag of getSessionVarDefaultString is ignored and the empty
string is applied through the normal setter dispatch. -/
theorem resetMissingDefaultAppliesEmptyString (dummyVars : List String) (n : SetVarNode)
    (st : RunState)
    (hreset : n.typedValues = none)
    (hd : lookupStr st.defaults n.name = none)
    (hg : n.v.GlobalDefault = none) :
    getSessionVarDefaultString n.name n.v st.defaults st.settings = (false, "")
  ∧ startExec dummyVars n st = dispatchSetter n (applyDummyNotice dummyVars n.name st) "" := by
  have h1 : getSessionVarDefaultString n.name n.v st.defaults st.settings = (false, "") := by
    simp [getSessionVarDefaultString, hd, hg]
  refine ⟨h1, ?_⟩
  have h2 : resolveStrVal n (applyDummyNotice dummyVars n.name st) = .ok "" := by
    simp only [resolveStrVal, hreset, applyDummyNotice_defaults, applyDummyNotice_settings]
    rw [h1]
  simp [startExec, h2]

/-- Witness for C10: a RESET node whose parameter lost its default still
executes, applying the empty string to the mutator set. -/
theorem resetMissingDefaultAppliesEmptyString_witness :
    getSessionVarDefaultString "x" vGeneric [] [] = (false, "")
  ∧ startExec [] nodeReset st1 = dispatchSetter nodeReset st1 "" :=
  resetMissingDefaultAppliesEmptyString [] nodeReset st1 rfl rfl rfl

/-- Claim C8: statement_timeout set to the integer 5000, to a five-second
interval, and to the text 5000ms all store the same 5000-millisecond
duration; the converter passes text through unchanged, preserves an
interval's nanoseconds, and reads an integer as whole milliseconds, and the
setter parses the resulting string under the millisecond field hint. -/
theorem statementTimeoutEquivalentForms (m : SessionDataMutator) :
    setStmtTimeoutFromValues m [.datum (.dInt 5000)]
      = .ok (SessionDataMutator.SetStmtTimeout m 5000000000)
  ∧ setStmtTimeoutFromValues m [.datum (.dInterval ⟨0, 0, 5000000000⟩)]
      = .ok (SessionDataMutator.SetStmtTimeout m 5000000000)
  ∧ setStmtTimeoutFromValues m [.datum (.dString "5000ms")]
      = .ok (SessionDataMutator.SetStmtTimeout m 5000000000)
  ∧ (∀ txt : String,
      makeTimeoutVarGetter "statement_timeout" [.datum (.dString txt)] = .ok txt)
  ∧ (∀ k : Int, makeTimeoutVarGetter "statement_timeout" [.datum (.dInt k)]
      = .ok (goDurationString (wrap64 (k * 1000000)))) :=
  ⟨rfl, rfl, rfl, fun _ => rfl, fun _ => rfl⟩

/-- Claim C9: a single evaluated value of any type other than text, interval
or integer makes the timeout converter return the rendering of a zero
duration with no error. -/
theorem timeoutGetterUnsupportedTypesZero (varName : String) (d : Datum)
    (h : timeoutUnsupportedType d = true) :
    makeTimeoutVarGetter varName [.datum d] = .ok (goDurationString 0)
  ∧ goDurationString 0 = "0s" := by
  refine ⟨?_, rfl⟩
  cases d <;> simp_all [timeoutUnsupportedType, makeTimeoutVarGetter, TypedExpr.eval]

/-- Witness for C9 at a boolean value. -/
theorem timeoutGetterUnsupportedTypesZero_witness :
    makeTimeoutVarGetter "statement_timeout" [.datum (.dBool true)] = .ok "0s"
  ∧ goDurationString 0 = "0s" :=
  timeoutGetterUnsupportedTypesZero "statement_timeout" (.dBool true) (by rfl)

/-- Claim C7: every timeout setter rejects an input string that parses to a
negative duration with a value error naming the parameter, and the mutator is
not called, so the stored timeout duration is unchanged. -/
theorem negativeTimeoutRejected (m : SessionDataMutator) (s : String)
    (iv : GoDuration) (dur : Int)
    (hp : parseDIntervalWithTypeMetadata m.intervalStyle s = .ok iv)
    (hd : intervalToDuration iv = .ok dur)
    (hneg : dur < 0) :
    stmtTimeoutVarSet m s
      = .error (wrapSetVarError "statement_timeout" s
          "statement_timeout cannot have a negative duration")
  ∧ lockTimeoutVarSet m s
      = .error (wrapSetVarError "lock_timeout" s
          "lock_timeout cannot have a negative duration")
  ∧ idleInSessionTimeoutVarSet m s
      = .error (wrapSetVarError "idle_in_session_timeout" s
          "idle_in_session_timeout cannot have a negative duration")
  ∧ idleInTransactionSessionTimeoutVarSet m s
      = .error (wrapSetVarError "idle_in_transaction_session_timeout" s
          "idle_in_transaction_session_timeout cannot have a negative duration")
  ∧ ∀ (ti : Bool) (ns : List Notice) (dfs : List (String × String)) (stg : Settings),
      applyOnSessionDataMutators ⟨ti, [m], ns, dfs, stg⟩ false
          (fun mm => lockTimeoutVarSet mm s)
        = (⟨ti, [m], ns, dfs, stg⟩,
           some (wrapSetVarError "lock_timeout" s
             "lock_timeout cannot have a negative duration")) := by
  have hval : ∀ vn, validateTimeoutVar (SessionDataMutator.GetIntervalStyle m) s vn
      = .error (wrapSetVarError vn s (vn ++ " cannot have a negative duration")) := by
    intro vn
    simp [validateTimeoutVar, SessionDataMutator.GetIntervalStyle, hp, hd, hneg]
  have hlock : lockTimeoutVarSet m s
      = .error (wrapSetVarError "lock_timeout" s
          "lock_timeout cannot have a negative duration") := by
    simp [lockTimeoutVarSet, hval]
  refine ⟨by simp [stmtTimeoutVarSet, hval], hlock,
    by simp [idleInSessionTimeoutVarSet, hval],
    by simp [idleInTransactionSessionTimeoutVarSet, hval], ?_⟩
  intro ti ns dfs stg
  simp [applyOnSessionDataMutators, applyOnEachMutatorErrorList, hlock]

/-- Witness for C7: lock_timeout set to -1 fails with the negative-duration
value error. -/
theorem negativeTimeoutRejected_witness :
    lockTimeoutVarSet m0 "-1"
      = .error (wrapSetVarError "lock_timeout" "-1"
          "lock_timeout cannot have a negative duration") :=
  (negativeTimeoutRejected m0 "-1" ⟨0, 0, -1000000⟩ (-1000000)
    (by rfl) (by rfl) (by decide)).2.1

/-- A decimal with nonnegative exponent has the integer value
coeff * 10 ^ exp. -/
theorem ApdDec.toRat_int_of_nonneg (d : ApdDec) (h : 0 ≤ d.exp) :
    d.toRat = ((d.coeff * 10 ^ d.exp.toNat : Int) : ℚ) := by
  unfold ApdDec.toRat
  have h0 : (-d.exp).toNat = 0 := by omega
  rw [h0, pow_zero, div_one]
  push_cast
  ring

/-- A decimal with negative exponent has the value coeff / 10 ^ (-exp). -/
theorem ApdDec.toRat_of_neg (d : ApdDec) (h : d.exp < 0) :
    d.toRat = (d.coeff : ℚ) / (10 : ℚ) ^ (-d.exp).toNat := by
  unfold ApdDec.toRat
  have h0 : d.exp.toNat = 0 := by omega
  rw [h0, pow_zero, mul_one]

/-- The modelled apd Int64 conversion fails on every decimal whose value lies
outside the int64 range. -/
theorem apdInt64_error_of_out_of_range (d : ApdDec)
    (h : (maxInt64 : ℚ) < d.toRat ∨ d.toRat < (minInt64 : ℚ)) :
    ∃ msg, apdInt64 d = .error msg := by
  simp only [apdInt64]
  split_ifs with he h1 h2 hdvd h3 h4
  · exact ⟨_, rfl⟩
  · exact ⟨_, rfl⟩
  · exfalso
    have hv := ApdDec.toRat_int_of_nonneg d he
    rw [hv] at h
    rcases h with h | h
    · have : maxInt64 < d.coeff * 10 ^ d.exp.toNat := by exact_mod_cast h
      omega
    · have : d.coeff * 10 ^ d.exp.toNat < minInt64 := by exact_mod_cast h
      omega
  · exact ⟨_, rfl⟩
  · exact ⟨_, rfl⟩
  · exfalso
    obtain ⟨w, hw⟩ := hdvd
    have hpne : ((10 : Int) ^ (-d.exp).toNat) ≠ 0 := by positivity
    have hv : Int.tdiv d.coeff (10 ^ (-d.exp).toNat) = w := by
      rw [hw]; exact Int.mul_tdiv_cancel_left w hpne
    have hq : d.toRat = (w : ℚ) := by
      rw [ApdDec.toRat_of_neg d (by omega), hw]
      push_cast
      rw [mul_comm, mul_div_assoc,
        div_self (by positivity : ((10 : ℚ) ^ (-d.exp).toNat) ≠ 0), mul_one]
    rw [hv] at h3 h4
    rw [hq] at h
    rcases h with h | h
    · have : maxInt64 < w := by exact_mod_cast h
      omega
    · have : w < minInt64 := by exact_mod_cast h
      omega
  · exact ⟨_, rfl⟩

/-- The 60 * 60 scaling performed by the decimal time-zone branch. -/
theorem scaledDecimal_eq (v : ApdDec) :
    ApdDec.mul (ApdDec.mul ⟨60, 0⟩ ⟨60, 0⟩) v = ⟨3600 * v.coeff, v.exp⟩ := by
  unfold ApdDec.mul
  norm_num

/-- The decimal time-zone branch scales the value exactly by 3600. -/
theorem scaledDecimal_toRat (v : ApdDec) :
    (ApdDec.mul (ApdDec.mul ⟨60, 0⟩ ⟨60, 0⟩) v).toRat = 3600 * v.toRat := by
  rw [scaledDecimal_eq]
  unfold ApdDec.toRat
  push_cast
  ring

/-- Claim C6: a decimal time-zone value whose hours, scaled exactly by 3600,
fall outside the signed 64-bit seconds range produces a value error naming
the parameter whose detail mentions the would-be-overflowing scaled value and
the word overflow; the offset is never silently wrapped or truncated. -/
theorem decimalTimeZoneOverflowError (v : ApdDec)
    (h : (maxInt64 : ℚ) < 3600 * ApdDec.toRat v
      ∨ 3600 * ApdDec.toRat v < (minInt64 : ℚ)) :
    timeZoneVarGetStringVal [.datum (.dDecimal v)]
      = .error (wrapSetVarError "timezone" (renderDatum (.dDecimal v))
          ("time zone value "
            ++ ApdDec.render (ApdDec.mul (ApdDec.mul ⟨60, 0⟩ ⟨60, 0⟩) v)
            ++ " would overflow an int64")) := by
  have hrange : (maxInt64 : ℚ) < (ApdDec.mul (ApdDec.mul ⟨60, 0⟩ ⟨60, 0⟩) v).toRat
      ∨ (ApdDec.mul (ApdDec.mul ⟨60, 0⟩ ⟨60, 0⟩) v).toRat < (minInt64 : ℚ) := by
    rw [scaledDecimal_toRat]; exact h
  obtain ⟨msg, hmsg⟩ := apdInt64_error_of_out_of_range _ hrange
  simp [timeZoneVarGetStringVal, timeZoneVarGetLoc, TypedExpr.eval, TypedExpr.render, hmsg]

/-- The witness decimal 2^63 hours scales past the int64 maximum. -/
theorem bigDecScaledOutOfRange : (maxInt64 : ℚ) < 3600 * ApdDec.toRat bigDec := by
  norm_num [ApdDec.toRat, bigDec, maxInt64]

/-- Witness for C6 at the decimal 2^63. -/
theorem decimalTimeZoneOverflowError_witness :
    timeZoneVarGetStringVal [.datum (.dDecimal bigDec)]
      = .error (wrapSetVarError "timezone" (renderDatum (.dDecimal bigDec))
          ("time zone value "
            ++ ApdDec.render (ApdDec.mul (ApdDec.mul ⟨60, 0⟩ ⟨60, 0⟩) bigDec)
            ++ " would overflow an int64")) :=
  decimalTimeZoneOverflowError bigDec (Or.inl bigDecScaledOutOfRange)

/-- Claim C4 counterexample: for an assignment to a parameter whose descriptor
exposes no setter strategy at all, a value expression that fails type checking
makes compile fail with the wrapped value error, not with the
cannot-be-changed error, so the claimed "exactly when" does not hold as
stated. -/
theorem immutableParameterErrorCounterexample :
    (vAllNil.Set.isNone && vAllNil.RuntimeSet.isNone && vAllNil.SetWithPlanner.isNone) = true
  ∧ SetVar cexRegistry [] cexAst = .error (wrapSetVarError "v" "$1" "boom")
  ∧ wrapSetVarError "v" "$1" "boom" ≠ newCannotChangeParameterError "v" :=
  ⟨rfl, by rfl, by decide⟩

/-- Claim C4 amended: for a request whose name is nonempty and resolves to a
descriptor, and whose value expressions (when it is an assignment) all
type-check, compile fails with the cannot-be-changed error exactly when the
descriptor has all three of Set, RuntimeSet and SetWithPlanner nil — for both
assignment and RESET — or the request is RESET and the parameter has neither
a session-configured default nor a global-default provider; in those cases no
plan is produced, and compilation is pure, so no state is mutated. -/
theorem cannotChangeParameterCharacterization
    (registry : List (String × SessionVar)) (defaults : List (String × String))
    (n : TreeSetVar) (v : SessionVar)
    (hname : ¬ n.name = "")
    (hlook : getSessionVar registry (strToLower n.name) = .ok v)
    (hana : isResetValues n.values = true
        ∨ ∃ ts, analyzeValues (strToLower n.name) n.values = .ok ts) :
    SetVar registry defaults n
        = .error (newCannotChangeParameterError (strToLower n.name))
      ↔ ((v.Set.isNone && v.RuntimeSet.isNone && v.SetWithPlanner.isNone) = true
        ∨ (isResetValues n.values = true
            ∧ lookupStr defaults (strToLower n.name) = none
            ∧ v.GlobalDefault.isNone = true)) := by
  simp only [SetVar, if_neg hname, hlook]
  by_cases hr : isResetValues n.values = true
  · simp only [hr, if_true]
    by_cases hc1 : (v.Set.isNone && v.RuntimeSet.isNone && v.SetWithPlanner.isNone) = true
    · simp [hc1, hr]
    · by_cases hl : lookupStr defaults (strToLower n.name) = none
      · by_cases hg : v.GlobalDefault.isNone = true
        · simp [hc1, hl, hg, hr]
        · simp [hc1, hl, hg, hr]
      · simp [hc1, hl, hr]
  · have hts : ∃ ts, analyzeValues (strToLower n.name) n.values = .ok ts := by
      rcases hana with h | h
      · exact absurd h hr
      · exact h
    obtain ⟨ts, hts⟩ := hts
    simp only [hr, if_false, hts]
    by_cases hc1 : (v.Set.isNone && v.RuntimeSet.isNone && v.SetWithPlanner.isNone) = true
    · simp [hc1, hr]
    · simp [hc1, hr]

/-- Witness for the amended C4: a RESET of the strategy-less parameter v fails
with the cannot-be-changed error. -/
theorem cannotChangeParameterCharacterization_witness :
    SetVar cexRegistry [] ⟨"v", false, []⟩
      = .error (newCannotChangeParameterError "v") :=
  (cannotChangeParameterCharacterization cexRegistry [] ⟨"v", false, []⟩ vAllNil
    (by decide) (by rfl) (Or.inl rfl)).mpr (Or.inl rfl)

/-- A successful apd Int64 conversion returns exactly the decimal's value. -/
theorem apdInt64_ok_toRat (d : ApdDec) (t : Int) (h : apdInt64 d = .ok t) :
    (t : ℚ) = d.toRat := by
  simp only [apdInt64] at h
  split_ifs at h with he h1 h2 hdvd h3 h4 <;> try simp at h
  · rw [ApdDec.toRat_int_of_nonneg d he, ← h]
  · obtain ⟨w, hw⟩ := hdvd
    have hpne : ((10 : Int) ^ (-d.exp).toNat) ≠ 0 := by positivity
    have hv : Int.tdiv d.coeff (10 ^ (-d.exp).toNat) = w := by
      rw [hw]; exact Int.mul_tdiv_cancel_left w hpne
    have hq : d.toRat = (w : ℚ) := by
      rw [ApdDec.toRat_of_neg d (by omega), hw]
      push_cast
      rw [mul_comm, mul_div_assoc,
        div_self (by positivity : ((10 : ℚ) ^ (-d.exp).toNat) ≠ 0), mul_one]
    rw [hq, ← h, hv]

/-- Claim C5: the integer 5, the decimal 5.0 and an interval of 5 hours all
resolve to the same fixed-offset zone of 18000 seconds, the integer -8 to
-28800 seconds, and the fractional decimal 5.5 to 19800 seconds; in general
an integer is multiplied by 3600 into seconds, a float is interpreted as
fractional hours multiplied into seconds through the Go int64 conversion, a
decimal is interpreted as fractional hours scaled exactly by 3600 (the
resulting offset equals 3600 times the decimal's rational value), and an
interval's encoded nanosecond duration is truncated to whole seconds by
integer division. -/
theorem timeZoneValueEquivalences :
    (timeZoneVarGetLoc [.datum (.dInt 5)]).map Location.offset = .ok 18000
  ∧ (timeZoneVarGetLoc [.datum (.dDecimal ⟨50, -1⟩)]).map Location.offset = .ok 18000
  ∧ (timeZoneVarGetLoc [.datum (.dDecimal ⟨55, -1⟩)]).map Location.offset = .ok 19800
  ∧ (timeZoneVarGetLoc [.datum (.dInterval ⟨0, 0, 18000000000000⟩)]).map Location.offset
      = .ok 18000
  ∧ (timeZoneVarGetLoc [.datum (.dInt (-8))]).map Location.offset = .ok (-28800)
  ∧ (∀ nHours : Int, (timeZoneVarGetLoc [.datum (.dInt nHours)]).map Location.offset
      = .ok (wrap64 (nHours * 60 * 60)))
  ∧ (∀ x : Float, (timeZoneVarGetLoc [.datum (.dFloat x)]).map Location.offset
      = .ok (goFloatToInt64 (x * 60.0 * 60.0)))
  ∧ (∀ iv t, durationEncode iv = .ok t →
      (timeZoneVarGetLoc [.datum (.dInterval iv)]).map Location.offset
        = .ok (Int.tdiv t nanosPerSecond))
  ∧ (∀ (v : ApdDec) (t : Int),
      apdInt64 (ApdDec.mul (ApdDec.mul ⟨60, 0⟩ ⟨60, 0⟩) v) = .ok t →
      (timeZoneVarGetLoc [.datum (.dDecimal v)]).map Location.offset = .ok t
        ∧ (t : ℚ) = 3600 * ApdDec.toRat v) := by
  refine ⟨by rfl, by rfl, by rfl, by rfl, by rfl, fun nHours => rfl, fun x => rfl, ?_, ?_⟩
  · intro iv t henc
    simp [timeZoneVarGetLoc, TypedExpr.eval, henc, fixedOffsetTimeZoneToLocation, Except.map]
  · intro v t hok
    constructor
    · simp [timeZoneVarGetLoc, TypedExpr.eval, hok, fixedOffsetTimeZoneToLocation, Except.map]
    · rw [apdInt64_ok_toRat _ _ hok, scaledDecimal_toRat]

/-- Witness for C5 at a concrete one-second interval and at the fractional
decimal 5.5 hours. -/
theorem timeZoneValueEquivalences_witness :
    ((timeZoneVarGetLoc [.datum (.dInterval ⟨0, 0, 1000000000⟩)]).map Location.offset
      = .ok (Int.tdiv 1000000000 nanosPerSecond))
  ∧ ((timeZoneVarGetLoc [.datum (.dDecimal ⟨55, -1⟩)]).map Location.offset = .ok 19800
      ∧ ((19800 : Int) : ℚ) = 3600 * ApdDec.toRat ⟨55, -1⟩) :=
  ⟨timeZoneValueEquivalences.2.2.2.2.2.2.2.1 ⟨0, 0, 1000000000⟩ 1000000000 (by rfl),
   timeZoneValueEquivalences.2.2.2.2.2.2.2.2 ⟨55, -1⟩ 19800 (by rfl)⟩
